import Mathlib

/-!
Shallow embedding of the dataset-binding and metrics-cache layer of the
radicalbit platform SDK (`radicalbit_platform_sdk/apis/model.py` and
`radicalbit_platform_sdk/apis/model_reference_dataset.py`), together with
theorems checking the specification's claims about it.

External collaborators (HTTP transport, object storage, pydantic payload
validation) are passed in as explicit inputs: each embedded operation takes
the outcome the collaborator would produce and returns its result together
with the ordered list of outward calls (effects) it performed.
-/

namespace RadicalBit

/-- Modelled from the spec: `job_status.py` is not among the provided source
files; §3 of the spec fixes the job statuses as `IMPORTING`, `SUCCEEDED`,
`ERROR` (a Python `str` enum). -/
inductive JobStatus where
  | IMPORTING
  | SUCCEEDED
  | ERROR
deriving DecidableEq, Repr

/-- Modelled from the spec: `model_type.py` is not among the provided source
files; §3 of the spec fixes the model kinds as binary / multiclass /
regression. -/
inductive ModelType where
  | BINARY
  | MULTI_CLASS
  | REGRESSION
deriving DecidableEq, Repr

/-- `JobStatus(s)`: conversion of a string into the `JobStatus` enum.
Python's `Enum` constructor raises `ValueError` on an unrecognized value;
`none` stands for that `ValueError`. -/
def JobStatus.ofString : String → Option JobStatus
  | "IMPORTING" => some .IMPORTING
  | "SUCCEEDED" => some .SUCCEEDED
  | "ERROR" => some .ERROR
  | _ => none

/-- `JobStatus(response_json.get("jobStatus", JobStatus.ERROR))`
(model_reference_dataset.py line 62 and its twins at lines 97 and 142): a
missing `jobStatus` key defaults to `JobStatus.ERROR` (the enum applied to
its own member is the member itself); a present key is converted through the
enum, which raises `ValueError` (`none`) on an unrecognized value. -/
def jobStatusGet : Option String → Option JobStatus
  | none => some .ERROR
  | some s => JobStatus.ofString s

/-- The exceptions the embedded code can raise. Each `ClientError` raise site
of the source gets one constructor carrying the data interpolated into its
message; `valueError` and `nameError` are built-in Python exceptions that
escape uncaught (neither is a subclass of `KeyError`, of pydantic's
`ValidationError`, or of the SDK's `ClientError`). -/
inductive PyError where
  | missingColumns (file : String) (requiredHeaders : List String)
  | uploadFailed (file : String)
  | getFailed (url : String)
  | parseFailed (what : String)
  | nonBinaryMetrics
  | valueError (value : String)
  | nameError (name : String)
deriving DecidableEq, Repr

/-- Which exceptions are instances of the SDK's `ClientError` class (the
spec's `ValidationFailure` / `StorageFailure` / `ProtocolFailure`). -/
def PyError.isClientError : PyError → Bool
  | .valueError _ => false
  | .nameError _ => false
  | _ => true

/-- The JSON body of a 200 response to a metrics request, at the granularity
the accessors inspect it: the optional string under the `jobStatus` key and,
for each metric key, an optional opaque payload (`some p` means the key is
present with payload `p`). The payload schema is opaque (spec §1 non-goals);
pydantic's `model_validate` for each metric model is passed to the embedded
code as a function returning `none` exactly when validation raises
`ValidationError`. -/
structure Response (P : Type) where
  jobStatus : Option String
  statistics : Option P
  dataQuality : Option P
  modelQuality : Option P

/-- The mutable state of a `ModelReferenceDataset` handle: the model type it
was constructed with and, mutated over its lifetime, the last observed job
status (`__status`) and the three metric cache slots (`__statistics`,
`__data_metrics`, `__model_metrics`). -/
structure RefDataset (S D M : Type) where
  modelType : ModelType
  status : JobStatus
  statistics : Option S
  dataMetrics : Option D
  modelMetrics : Option M

/-- The `__callback` closure of `ModelReferenceDataset.statistics`
(model_reference_dataset.py lines 57-70): parse the job status (an
unrecognized value raises `ValueError`, uncaught); if the `statistics` key is
present validate its payload (`ValidationError` is caught and re-raised as
`ClientError`), otherwise return the status with no payload. -/
def statisticsCallback {P S : Type} (resp : Response P)
    (validate : P → Option S) : Except PyError (JobStatus × Option S) :=
  match jobStatusGet resp.jobStatus with
  | none => .error (.valueError (resp.jobStatus.getD ""))
  | some js =>
    match resp.statistics with
    | some p =>
      match validate p with
      | some s => .ok (js, some s)
      | none => .error (.parseFailed "statistics")
    | none => .ok (js, none)

/-- The `__callback` closure of `ModelReferenceDataset.data_quality`
(model_reference_dataset.py lines 94-113): as for statistics, but when the
`dataQuality` key is present the payload is only validated for `BINARY`
models; for any other model type a `ClientError` is raised before the payload
is even looked at (that `ClientError` is not caught by the surrounding
`except (KeyError, ValidationError)`). -/
def dataQualityCallback {P D : Type} (modelType : ModelType) (resp : Response P)
    (validate : P → Option D) : Except PyError (JobStatus × Option D) :=
  match jobStatusGet resp.jobStatus with
  | none => .error (.valueError (resp.jobStatus.getD ""))
  | some js =>
    match resp.dataQuality with
    | some p =>
      if modelType = ModelType.BINARY then
        match validate p with
        | some d => .ok (js, some d)
        | none => .error (.parseFailed "dataQuality")
      else .error .nonBinaryMetrics
    | none => .ok (js, none)

/-- The `__callback` closure of `ModelReferenceDataset.model_quality`
(model_reference_dataset.py lines 137-158), mirroring `data_quality` on the
`modelQuality` key. -/
def modelQualityCallback {P M : Type} (modelType : ModelType) (resp : Response P)
    (validate : P → Option M) : Except PyError (JobStatus × Option M) :=
  match jobStatusGet resp.jobStatus with
  | none => .error (.valueError (resp.jobStatus.getD ""))
  | some js =>
    match resp.modelQuality with
    | some p =>
      if modelType = ModelType.BINARY then
        match validate p with
        | some q => .ok (js, some q)
        | none => .error (.parseFailed "modelQuality")
      else .error .nonBinaryMetrics
    | none => .ok (js, none)

/-- `ModelReferenceDataset.statistics` (model_reference_dataset.py lines
50-85). `resp` is the body the server would answer with and `validate` is
`DatasetStats.model_validate`. Returns the handle's state after the call, the
returned value or the escaped exception, and the number of HTTP requests
issued (0 or 1). On an exception the state is unchanged: both assignments
come after `invoke` returns. -/
def RefDataset.getStatistics {P S D M : Type} (self : RefDataset S D M)
    (resp : Response P) (validate : P → Option S) :
    RefDataset S D M × Except PyError (Option S) × Nat :=
  if self.status = JobStatus.ERROR then
    ({ self with statistics := none }, .ok none, 0)
  else if self.status = JobStatus.SUCCEEDED ∨ self.status = JobStatus.IMPORTING then
    if self.statistics.isNone ∨ self.status = JobStatus.IMPORTING then
      match statisticsCallback resp validate with
      | .error e => (self, .error e, 1)
      | .ok (js, stats) =>
        ({ self with status := js, statistics := stats }, .ok stats, 1)
    else (self, .ok self.statistics, 0)
  else (self, .ok self.statistics, 0)

/-- `ModelReferenceDataset.data_quality` (model_reference_dataset.py lines
87-128), with `validate` standing for
`BinaryClassificationDataQuality.model_validate`. -/
def RefDataset.getDataQuality {P S D M : Type} (self : RefDataset S D M)
    (resp : Response P) (validate : P → Option D) :
    RefDataset S D M × Except PyError (Option D) × Nat :=
  if self.status = JobStatus.ERROR then
    ({ self with dataMetrics := none }, .ok none, 0)
  else if self.status = JobStatus.SUCCEEDED ∨ self.status = JobStatus.IMPORTING then
    if self.dataMetrics.isNone ∨ self.status = JobStatus.IMPORTING then
      match dataQualityCallback self.modelType resp validate with
      | .error e => (self, .error e, 1)
      | .ok (js, metrics) =>
        ({ self with status := js, dataMetrics := metrics }, .ok metrics, 1)
    else (self, .ok self.dataMetrics, 0)
  else (self, .ok self.dataMetrics, 0)

/-- `ModelReferenceDataset.model_quality` (model_reference_dataset.py lines
130-173), with `validate` standing for
`BinaryClassificationModelQuality.model_validate`. -/
def RefDataset.getModelQuality {P S D M : Type} (self : RefDataset S D M)
    (resp : Response P) (validate : P → Option M) :
    RefDataset S D M × Except PyError (Option M) × Nat :=
  if self.status = JobStatus.ERROR then
    ({ self with modelMetrics := none }, .ok none, 0)
  else if self.status = JobStatus.SUCCEEDED ∨ self.status = JobStatus.IMPORTING then
    if self.modelMetrics.isNone ∨ self.status = JobStatus.IMPORTING then
      match modelQualityCallback self.modelType resp validate with
      | .error e => (self, .error e, 1)
      | .ok (js, metrics) =>
        ({ self with status := js, modelMetrics := metrics }, .ok metrics, 1)
    else (self, .ok self.modelMetrics, 0)
  else (self, .ok self.modelMetrics, 0)

/-- `ColumnDefinition` (column_definition.py is not among the provided source
files; the spec's §3 gives it a name, a declared value kind and a derived
field classification). Only `name` is read by the embedded operations. -/
structure ColumnDefinition where
  name : String
  type : String
  field_type : String
deriving DecidableEq, Repr

/-- `OutputType` (model_definition.py lines 13-18). -/
structure OutputType where
  prediction : ColumnDefinition
  prediction_proba : Option ColumnDefinition
  output : List ColumnDefinition
deriving DecidableEq, Repr

/-- The state of a `Model` object (model.py lines 29-42), restricted to the
fields the embedded operations read. -/
structure Model where
  base_url : String
  uuid : String
  name : String
  model_type : ModelType
  features : List ColumnDefinition
  target : ColumnDefinition
  timestamp : ColumnDefinition
  outputs : OutputType
deriving DecidableEq, Repr

/-- `Model._required_headers` (model.py lines 345-348):
`model_columns = self._features + self._outputs.output`, then
`model_columns.append(self._target)`, then the list of the columns' names. -/
def Model.requiredHeaders (m : Model) : List String :=
  ((m.features ++ m.outputs.output) ++ [m.target]).map (fun c => c.name)

/-- `os.path.basename` for POSIX paths: the part after the last slash (empty
when the path ends in a slash). -/
def basename (p : String) : String :=
  ⟨p.data.foldl (fun acc ch => if ch = '/' then [] else acc ++ [ch]) []⟩

/-- Python truthiness of an `Optional[str]`: `None` and the empty string are
falsy, every other string is truthy. -/
def truthyStr : Option String → Bool
  | none => false
  | some s => !(s == "")

/-- The required-header list computed by `Model.load_current_dataset`
(model.py lines 224-227): the base required headers, then the correlation-id
column when that argument is truthy, then the timestamp column's name. -/
def Model.loadCurrentRequiredHeaders (m : Model)
    (correlationIdColumn : Option String) : List String :=
  (m.requiredHeaders ++
      (if truthyStr correlationIdColumn then [correlationIdColumn.getD ""] else []))
    ++ [m.timestamp.name]

/-- `set(required_headers).issubset(file_headers)` (model.py lines 150, 194,
229 and 277). -/
def issubset (required fileHeaders : List String) : Bool :=
  required.all (fun h => fileHeaders.contains h)

/-- The outward calls an embedded operation performs, in order. -/
inductive Effect where
  | s3Upload (fileName bucket objectName : String)
      (metadata : List (String × String))
  | bindReference (endpoint fileUrl separator : String)
  | bindCurrent (endpoint fileUrl separator : String)
      (correlationIdColumn : Option String)
  | postFeatures (endpoint : String) (features : List ColumnDefinition)
deriving DecidableEq, Repr

/-- Modelled from the spec: `file_upload_result.py` is not among the provided
source files; §3 describes the reference dataset handle's payload as a
server-issued UUID, a storage path, a creation timestamp and a job status. -/
structure ReferenceFileUpload where
  uuid : String
  path : String
  date : String
  status : JobStatus
deriving DecidableEq, Repr

/-- Modelled from the spec: `file_upload_result.py` is not among the provided
source files; §3 adds, for current datasets, an optional correlation-id
column name to the reference fields. -/
structure CurrentFileUpload where
  uuid : String
  path : String
  date : String
  status : JobStatus
  correlationIdColumn : Option String
deriving DecidableEq, Repr

/-- `ModelReferenceDataset.__init__` (model_reference_dataset.py lines
20-36): a fresh handle takes the upload's status and starts with all three
metric slots empty. -/
def mkReferenceDataset (S D M : Type) (modelType : ModelType)
    (upload : ReferenceFileUpload) : RefDataset S D M :=
  { modelType := modelType, status := upload.status,
    statistics := none, dataMetrics := none, modelMetrics := none }

/-- `Model.load_reference_dataset` (model.py lines 127-173). The I/O outcomes
are inputs: `fileHeaders` is the header row `pd.read_csv` returns, `uploadOk`
says whether `s3_client.upload_file` succeeds (`false` = `BotoClientError`),
and `bindResponse` is the parse of the bind endpoint's acknowledgment
(`none` = `ValidationError`). Returns the result and the outward calls
made. -/
def Model.load_reference_dataset (m : Model) (fileName bucket : String)
    (objectName : Option String) (separator : String)
    (fileHeaders : List String) (uploadOk : Bool)
    (bindResponse : Option ReferenceFileUpload) :
    Except PyError ReferenceFileUpload × List Effect :=
  let requiredHeaders := m.requiredHeaders
  if issubset requiredHeaders fileHeaders then
    let objName := match objectName with
      | none => m.uuid ++ "/reference/" ++ basename fileName
      | some o => o
    let uploadEff := Effect.s3Upload fileName bucket objName
      [("model_uuid", m.uuid), ("model_name", m.name), ("file_type", "reference")]
    if uploadOk then
      let bindEff := Effect.bindReference
        (m.base_url ++ "/api/models/" ++ m.uuid ++ "/reference/bind")
        ("s3://" ++ bucket ++ "/" ++ objName) separator
      match bindResponse with
      | some r => (.ok r, [uploadEff, bindEff])
      | none => (.error (.parseFailed "reference bind response"), [uploadEff, bindEff])
    else (.error (.uploadFailed fileName), [uploadEff])
  else (.error (.missingColumns fileName requiredHeaders), [])

/-- `Model.load_current_dataset` (model.py lines 201-252), with the same
conventions as `Model.load_reference_dataset`. -/
def Model.load_current_dataset (m : Model) (fileName bucket : String)
    (correlationIdColumn : Option String) (objectName : Option String)
    (separator : String) (fileHeaders : List String) (uploadOk : Bool)
    (bindResponse : Option CurrentFileUpload) :
    Except PyError CurrentFileUpload × List Effect :=
  let requiredHeaders := m.loadCurrentRequiredHeaders correlationIdColumn
  if issubset requiredHeaders fileHeaders then
    let objName := match objectName with
      | none => m.uuid ++ "/current/" ++ basename fileName
      | some o => o
    let uploadEff := Effect.s3Upload fileName bucket objName
      [("model_uuid", m.uuid), ("model_name", m.name), ("file_type", "current")]
    if uploadOk then
      let bindEff := Effect.bindCurrent
        (m.base_url ++ "/api/models/" ++ m.uuid ++ "/current/bind")
        ("s3://" ++ bucket ++ "/" ++ objName) separator correlationIdColumn
      match bindResponse with
      | some r => (.ok r, [uploadEff, bindEff])
      | none => (.error (.parseFailed "current bind response"), [uploadEff, bindEff])
    else (.error (.uploadFailed fileName), [uploadEff])
  else (.error (.missingColumns fileName requiredHeaders), [])

/-- `Model.bind_reference_dataset` (model.py lines 175-199). `headersResult`
is the outcome of `_get_file_headers` (`none` = `BotoClientError` while
reading the remote object, re-raised as `ClientError`). -/
def Model.bind_reference_dataset (m : Model) (datasetUrl separator : String)
    (headersResult : Option (List String))
    (bindResponse : Option ReferenceFileUpload) :
    Except PyError ReferenceFileUpload × List Effect :=
  match headersResult with
  | none => (.error (.getFailed datasetUrl), [])
  | some fileHeaders =>
    let requiredHeaders := m.requiredHeaders
    if issubset requiredHeaders fileHeaders then
      let bindEff := Effect.bindReference
        (m.base_url ++ "/api/models/" ++ m.uuid ++ "/reference/bind")
        datasetUrl separator
      match bindResponse with
      | some r => (.ok r, [bindEff])
      | none => (.error (.parseFailed "reference bind response"), [bindEff])
    else (.error (.missingColumns datasetUrl requiredHeaders), [])

/-- `Model.bind_current_dataset` (model.py lines 254-282). Unlike
`load_current_dataset`, here `correlation_id_column` is a required `str`
argument and is appended to the required headers unconditionally (line 274),
before the timestamp column's name (line 275). -/
def Model.bind_current_dataset (m : Model)
    (datasetUrl correlationIdColumn separator : String)
    (headersResult : Option (List String))
    (bindResponse : Option CurrentFileUpload) :
    Except PyError CurrentFileUpload × List Effect :=
  match headersResult with
  | none => (.error (.getFailed datasetUrl), [])
  | some fileHeaders =>
    let requiredHeaders :=
      (m.requiredHeaders ++ [correlationIdColumn]) ++ [m.timestamp.name]
    if issubset requiredHeaders fileHeaders then
      let bindEff := Effect.bindCurrent
        (m.base_url ++ "/api/models/" ++ m.uuid ++ "/current/bind")
        datasetUrl separator (some correlationIdColumn)
      match bindResponse with
      | some r => (.ok r, [bindEff])
      | none => (.error (.parseFailed "current bind response"), [bindEff])
    else (.error (.missingColumns datasetUrl requiredHeaders), [])

/-- The names the import statements of
`src/sdk/radicalbit_platform_sdk/apis/model.py` (lines 1-25) bind in that
module's namespace. `Model.update_features` evaluates the expression
`ModelFeatures(features=new_features)` against this namespace. -/
def modelPyImportedNames : List String :=
  ["os", "List", "Optional", "UUID", "boto3", "BotoClientError", "pd",
   "TypeAdapter", "ValidationError", "requests", "ModelCurrentDataset",
   "ModelReferenceDataset", "invoke", "ClientError", "AwsCredentials",
   "ColumnDefinition", "CurrentFileUpload", "DataType", "FileReference",
   "Granularity", "ModelDefinition", "ModelType", "OutputType",
   "ReferenceFileUpload"]

/-- `Model.update_features` (model.py lines 284-296). The `data` argument
`ModelFeatures(features=new_features).model_dump_json()` is evaluated before
`invoke` is entered; the name `ModelFeatures` is looked up in the module
namespace (`modelPyImportedNames`) and, when absent, Python raises
`NameError` there, so no request is sent and the local assignment
`self._features = new_features` (line 296) is never reached. `postOk` is the
transport outcome of the `invoke` call (`false` = the transport raised). -/
def Model.update_features (m : Model) (newFeatures : List ColumnDefinition)
    (postOk : Bool) : Except PyError Unit × Model × List Effect :=
  if modelPyImportedNames.contains "ModelFeatures" then
    let eff := Effect.postFeatures
      (m.base_url ++ "/api/models/" ++ m.uuid) newFeatures
    if postOk then (.ok (), { m with features := newFeatures }, [eff])
    else (.error (.getFailed (m.base_url ++ "/api/models/" ++ m.uuid)), m, [eff])
  else (.error (.nameError "ModelFeatures"), m, [])

/-- A concrete model used to instantiate theorems on explicit inputs: feature
`age`, target `adult`, output `prediction`, timestamp `created_at` (the
scenario of spec §8). -/
def exampleModel : Model where
  base_url := "http://api:9000"
  uuid := "m-1"
  name := "My Model"
  model_type := ModelType.BINARY
  features := [⟨"age", "int", "numerical"⟩]
  target := ⟨"adult", "bool", "categorical"⟩
  timestamp := ⟨"created_at", "datetime", "datetime"⟩
  outputs := ⟨⟨"prediction", "float", "numerical"⟩, none,
    [⟨"prediction", "float", "numerical"⟩]⟩

/-! ## Helper lemmas -/

theorem issubset_iff (r f : List String) : issubset r f = true ↔ ∀ h ∈ r, h ∈ f := by
  simp [issubset, List.all_eq_true, List.elem_iff]

theorem getStatistics_cached {P S D M : Type} (st : RefDataset S D M) (v : S)
    (h1 : st.status = JobStatus.SUCCEEDED) (h2 : st.statistics = some v)
    (resp : Response P) (vs : P → Option S) :
    st.getStatistics resp vs = (st, .ok (some v), 0) := by
  simp [RefDataset.getStatistics, h1, h2]

theorem getStatistics_one_call {P S D M : Type} {st st1 : RefDataset S D M}
    {resp : Response P} {vs : P → Option S} {w : Option S} {n : Nat}
    (h : st.getStatistics resp vs = (st1, Except.ok w, n)) (hn : n = 1) :
    st1.statistics = w := by
  subst hn
  rcases hs : st.status with _ | _ | _ <;>
    rcases hcb : statisticsCallback resp vs with e | ⟨js, stats⟩ <;>
      by_cases hslot : st.statistics.isNone = true <;>
        simp [RefDataset.getStatistics, hs, hcb, hslot] at h <;>
          simp [← h.1, h.2]

/-! ## Claim theorems -/

/-- C1: on a handle whose last known status is `ERROR`, each of the three
metric accessors returns `None`, sets its own cached slot to `None` (whatever
was cached there before), and issues no server request. -/
theorem refdataset_error_clears_and_returns_none
    {P S D M : Type} (st : RefDataset S D M) (h : st.status = JobStatus.ERROR)
    (resp : Response P) (vs : P → Option S) (vd : P → Option D)
    (vm : P → Option M) :
    st.getStatistics resp vs = ({ st with statistics := none }, .ok none, 0)
    ∧ st.getDataQuality resp vd = ({ st with dataMetrics := none }, .ok none, 0)
    ∧ st.getModelQuality resp vm = ({ st with modelMetrics := none }, .ok none, 0) := by
  refine ⟨?_, ?_, ?_⟩ <;>
    simp [RefDataset.getStatistics, RefDataset.getDataQuality,
      RefDataset.getModelQuality, h]

theorem refdataset_error_clears_and_returns_none_witness :
    RefDataset.getStatistics
        (⟨ModelType.BINARY, JobStatus.ERROR, some 1, some 2, some 3⟩ : RefDataset Nat Nat Nat)
        (⟨none, none, none, none⟩ : Response Unit) (fun _ => some 9)
      = (⟨ModelType.BINARY, JobStatus.ERROR, none, some 2, some 3⟩, .ok none, 0)
    ∧ RefDataset.getDataQuality
        (⟨ModelType.BINARY, JobStatus.ERROR, some 1, some 2, some 3⟩ : RefDataset Nat Nat Nat)
        (⟨none, none, none, none⟩ : Response Unit) (fun _ => some 9)
      = (⟨ModelType.BINARY, JobStatus.ERROR, some 1, none, some 3⟩, .ok none, 0) := by
  have h := refdataset_error_clears_and_returns_none
    (⟨ModelType.BINARY, JobStatus.ERROR, some 1, some 2, some 3⟩ : RefDataset Nat Nat Nat)
    rfl (⟨none, none, none, none⟩ : Response Unit)
    (fun _ => some 9) (fun _ => some 9) (fun _ => some 9)
  exact ⟨h.1, h.2.1⟩

/-- C2: on a handle whose status is `SUCCEEDED` with a populated statistics
slot, `statistics()` returns the cached value with no network request; and
after any fetch that issued one request, returned a payload and observed
`SUCCEEDED`, a second call returns the same payload with zero further
requests (one network call in total). -/
theorem statistics_cached_idempotent
    {P S D M : Type} (st : RefDataset S D M) (v : S)
    (h1 : st.status = JobStatus.SUCCEEDED) (h2 : st.statistics = some v)
    (resp : Response P) (vs : P → Option S) :
    st.getStatistics resp vs = (st, .ok (some v), 0)
    ∧ ∀ (st0 : RefDataset S D M) (resp0 : Response P) (vs0 : P → Option S)
        (st1 : RefDataset S D M) (w : S),
        st0.getStatistics resp0 vs0 = (st1, .ok (some w), 1) →
        st1.status = JobStatus.SUCCEEDED →
        st1.getStatistics resp vs = (st1, .ok (some w), 0) := by
  refine ⟨getStatistics_cached st v h1 h2 resp vs, ?_⟩
  intro st0 resp0 vs0 st1 w hfetch hsucc
  exact getStatistics_cached st1 w hsucc
    (getStatistics_one_call hfetch rfl) resp vs

theorem statistics_cached_idempotent_witness :
    RefDataset.getStatistics
        (⟨ModelType.BINARY, JobStatus.SUCCEEDED, some 7, none, none⟩ : RefDataset Nat Nat Nat)
        (⟨some "SUCCEEDED", none, none, none⟩ : Response Unit) (fun _ => some 7)
      = (⟨ModelType.BINARY, JobStatus.SUCCEEDED, some 7, none, none⟩, .ok (some 7), 0) :=
  (statistics_cached_idempotent
    (⟨ModelType.BINARY, JobStatus.SUCCEEDED, some 7, none, none⟩ : RefDataset Nat Nat Nat)
    7 rfl rfl (⟨some "SUCCEEDED", none, none, none⟩ : Response Unit)
    (fun _ => some 7)).1

/-! ## Error characterization helpers -/

theorem getStatistics_error_state {P S D M : Type} {st st1 : RefDataset S D M}
    {resp : Response P} {vs : P → Option S} {e : PyError} {n : Nat}
    (h : st.getStatistics resp vs = (st1, Except.error e, n)) :
    st1 = st ∧ statisticsCallback resp vs = Except.error e := by
  rcases hs : st.status with _ | _ | _ <;>
    rcases hcb : statisticsCallback resp vs with e0 | p <;>
      by_cases hslot : st.statistics.isNone = true <;>
        simp [RefDataset.getStatistics, hs, hcb, hslot] at h <;>
          (try obtain ⟨h1, h2, h3⟩ := h) <;> simp_all

theorem getDataQuality_error_state {P S D M : Type} {st st1 : RefDataset S D M}
    {resp : Response P} {vd : P → Option D} {e : PyError} {n : Nat}
    (h : st.getDataQuality resp vd = (st1, Except.error e, n)) :
    st1 = st ∧ dataQualityCallback st.modelType resp vd = Except.error e := by
  rcases hs : st.status with _ | _ | _ <;>
    rcases hcb : dataQualityCallback st.modelType resp vd with e0 | p <;>
      by_cases hslot : st.dataMetrics.isNone = true <;>
        simp [RefDataset.getDataQuality, hs, hcb, hslot] at h <;>
          (try obtain ⟨h1, h2, h3⟩ := h) <;> simp_all

theorem getModelQuality_error_state {P S D M : Type} {st st1 : RefDataset S D M}
    {resp : Response P} {vm : P → Option M} {e : PyError} {n : Nat}
    (h : st.getModelQuality resp vm = (st1, Except.error e, n)) :
    st1 = st ∧ modelQualityCallback st.modelType resp vm = Except.error e := by
  rcases hs : st.status with _ | _ | _ <;>
    rcases hcb : modelQualityCallback st.modelType resp vm with e0 | p <;>
      by_cases hslot : st.modelMetrics.isNone = true <;>
        simp [RefDataset.getModelQuality, hs, hcb, hslot] at h <;>
          (try obtain ⟨h1, h2, h3⟩ := h) <;> simp_all

theorem statisticsCallback_error_class {P S : Type} {resp : Response P}
    {vs : P → Option S} {e : PyError}
    (h : statisticsCallback resp vs = Except.error e) :
    e.isClientError = false ↔
      ∃ s, resp.jobStatus = some s ∧ JobStatus.ofString s = none := by
  rcases hj : resp.jobStatus with _ | s
  · rcases hp : resp.statistics with _ | p
    · simp [statisticsCallback, jobStatusGet, hj, hp] at h
    · rcases hv : vs p with _ | s0 <;>
        simp [statisticsCallback, jobStatusGet, hj, hp, hv] at h
      simp [← h, PyError.isClientError, hj]
  · rcases hos : JobStatus.ofString s with _ | js
    · simp [statisticsCallback, jobStatusGet, hj, hos] at h
      simp [← h, PyError.isClientError, hj, hos]
    · rcases hp : resp.statistics with _ | p
      · simp [statisticsCallback, jobStatusGet, hj, hp, hos] at h
      · rcases hv : vs p with _ | s0 <;>
          simp [statisticsCallback, jobStatusGet, hj, hp, hos, hv] at h
        simp [← h, PyError.isClientError, hj, hos]

theorem dataQualityCallback_error_class {P D : Type} {mt : ModelType}
    {resp : Response P} {vd : P → Option D} {e : PyError}
    (h : dataQualityCallback mt resp vd = Except.error e) :
    e.isClientError = false ↔
      ∃ s, resp.jobStatus = some s ∧ JobStatus.ofString s = none := by
  rcases hj : resp.jobStatus with _ | s
  · rcases hp : resp.dataQuality with _ | p
    · simp [dataQualityCallback, jobStatusGet, hj, hp] at h
    · by_cases hmt : mt = ModelType.BINARY
      · rcases hv : vd p with _ | d0 <;>
          simp [dataQualityCallback, jobStatusGet, hj, hp, hmt, hv] at h
        simp [← h, PyError.isClientError, hj]
      · simp [dataQualityCallback, jobStatusGet, hj, hp, hmt] at h
        simp [← h, PyError.isClientError, hj]
  · rcases hos : JobStatus.ofString s with _ | js
    · simp [dataQualityCallback, jobStatusGet, hj, hos] at h
      simp [← h, PyError.isClientError, hj, hos]
    · rcases hp : resp.dataQuality with _ | p
      · simp [dataQualityCallback, jobStatusGet, hj, hp, hos] at h
      · by_cases hmt : mt = ModelType.BINARY
        · rcases hv : vd p with _ | d0 <;>
            simp [dataQualityCallback, jobStatusGet, hj, hp, hos, hmt, hv] at h
          simp [← h, PyError.isClientError, hj, hos]
        · simp [dataQualityCallback, jobStatusGet, hj, hp, hos, hmt] at h
          simp [← h, PyError.isClientError, hj, hos]

theorem modelQualityCallback_error_class {P M : Type} {mt : ModelType}
    {resp : Response P} {vm : P → Option M} {e : PyError}
    (h : modelQualityCallback mt resp vm = Except.error e) :
    e.isClientError = false ↔
      ∃ s, resp.jobStatus = some s ∧ JobStatus.ofString s = none := by
  rcases hj : resp.jobStatus with _ | s
  · rcases hp : resp.modelQuality with _ | p
    · simp [modelQualityCallback, jobStatusGet, hj, hp] at h
    · by_cases hmt : mt = ModelType.BINARY
      · rcases hv : vm p with _ | q0 <;>
          simp [modelQualityCallback, jobStatusGet, hj, hp, hmt, hv] at h
        simp [← h, PyError.isClientError, hj]
      · simp [modelQualityCallback, jobStatusGet, hj, hp, hmt] at h
        simp [← h, PyError.isClientError, hj]
  · rcases hos : JobStatus.ofString s with _ | js
    · simp [modelQualityCallback, jobStatusGet, hj, hos] at h
      simp [← h, PyError.isClientError, hj, hos]
    · rcases hp : resp.modelQuality with _ | p
      · simp [modelQualityCallback, jobStatusGet, hj, hp, hos] at h
      · by_cases hmt : mt = ModelType.BINARY
        · rcases hv : vm p with _ | q0 <;>
            simp [modelQualityCallback, jobStatusGet, hj, hp, hos, hmt, hv] at h
          simp [← h, PyError.isClientError, hj, hos]
        · simp [modelQualityCallback, jobStatusGet, hj, hp, hos, hmt] at h
          simp [← h, PyError.isClientError, hj, hos]

/-- C3 counterexample: on a handle with status `IMPORTING`, a response whose
`jobStatus` value is the unrecognized string `"PENDING"` makes `statistics()`
raise the enum constructor's `ValueError` — which is caught by neither
`except (KeyError, ValidationError)` nor wrapped into `ClientError` — so the
escaped exception is not a `ClientError`, contrary to the claim. -/
theorem statistics_unknown_jobstatus_not_clienterror :
    RefDataset.getStatistics
        (⟨ModelType.BINARY, JobStatus.IMPORTING, none, none, none⟩ : RefDataset Nat Nat Nat)
        (⟨some "PENDING", none, none, none⟩ : Response Unit) (fun _ => some 0)
      = (⟨ModelType.BINARY, JobStatus.IMPORTING, none, none, none⟩,
          .error (PyError.valueError "PENDING"), 1)
    ∧ PyError.isClientError (PyError.valueError "PENDING") = false :=
  ⟨rfl, rfl⟩

/-- C3 amended: every accessor call that raises leaves the handle's status
field and all three cache slots exactly as they were before the call; the
escaped exception is a `ClientError` (`ProtocolFailure`) in every failure
case except an unrecognized `jobStatus` value, which escapes as the enum
constructor's plain `ValueError` instead. -/
theorem accessor_failure_state_unchanged_classified
    {P S D M : Type} (st : RefDataset S D M) (resp : Response P)
    (vs : P → Option S) (vd : P → Option D) (vm : P → Option M) :
    (∀ st1 e n, st.getStatistics resp vs = (st1, Except.error e, n) →
        st1 = st ∧ (e.isClientError = false ↔
          ∃ s, resp.jobStatus = some s ∧ JobStatus.ofString s = none))
    ∧ (∀ st1 e n, st.getDataQuality resp vd = (st1, Except.error e, n) →
        st1 = st ∧ (e.isClientError = false ↔
          ∃ s, resp.jobStatus = some s ∧ JobStatus.ofString s = none))
    ∧ (∀ st1 e n, st.getModelQuality resp vm = (st1, Except.error e, n) →
        st1 = st ∧ (e.isClientError = false ↔
          ∃ s, resp.jobStatus = some s ∧ JobStatus.ofString s = none)) := by
  refine ⟨fun st1 e n h => ?_, fun st1 e n h => ?_, fun st1 e n h => ?_⟩
  · obtain ⟨h1, h2⟩ := getStatistics_error_state h
    exact ⟨h1, statisticsCallback_error_class h2⟩
  · obtain ⟨h1, h2⟩ := getDataQuality_error_state h
    exact ⟨h1, dataQualityCallback_error_class h2⟩
  · obtain ⟨h1, h2⟩ := getModelQuality_error_state h
    exact ⟨h1, modelQualityCallback_error_class h2⟩

theorem accessor_failure_state_unchanged_classified_witness :
    ((⟨ModelType.REGRESSION, JobStatus.IMPORTING, none, none, none⟩ : RefDataset Nat Nat Nat)
        = ⟨ModelType.REGRESSION, JobStatus.IMPORTING, none, none, none⟩)
    ∧ (PyError.isClientError (PyError.valueError "BOGUS") = false ↔
        ∃ s, (some "BOGUS" : Option String) = some s ∧ JobStatus.ofString s = none) :=
  (accessor_failure_state_unchanged_classified
    (⟨ModelType.REGRESSION, JobStatus.IMPORTING, none, none, none⟩ : RefDataset Nat Nat Nat)
    (⟨some "BOGUS", none, none, none⟩ : Response Unit)
    (fun _ => some 0) (fun _ => some 0) (fun _ => some 0)).1
    ⟨ModelType.REGRESSION, JobStatus.IMPORTING, none, none, none⟩
    (PyError.valueError "BOGUS") 1 rfl

/-! ## Fetch-branch helpers -/

theorem getStatistics_fetches {P S D M : Type} {st : RefDataset S D M}
    (resp : Response P) (vs : P → Option S)
    (hiss : st.status = JobStatus.IMPORTING ∨
      (st.status = JobStatus.SUCCEEDED ∧ st.statistics = none)) :
    st.getStatistics resp vs =
      match statisticsCallback resp vs with
      | .error e => (st, .error e, 1)
      | .ok (js, stats) =>
        ({ st with status := js, statistics := stats }, .ok stats, 1) := by
  rcases hiss with h | ⟨h1, h2⟩
  · simp [RefDataset.getStatistics, h]
  · simp [RefDataset.getStatistics, h1, h2]

theorem getDataQuality_fetches {P S D M : Type} {st : RefDataset S D M}
    (resp : Response P) (vd : P → Option D)
    (hiss : st.status = JobStatus.IMPORTING ∨
      (st.status = JobStatus.SUCCEEDED ∧ st.dataMetrics = none)) :
    st.getDataQuality resp vd =
      match dataQualityCallback st.modelType resp vd with
      | .error e => (st, .error e, 1)
      | .ok (js, metrics) =>
        ({ st with status := js, dataMetrics := metrics }, .ok metrics, 1) := by
  rcases hiss with h | ⟨h1, h2⟩
  · simp [RefDataset.getDataQuality, h]
  · simp [RefDataset.getDataQuality, h1, h2]

theorem getModelQuality_fetches {P S D M : Type} {st : RefDataset S D M}
    (resp : Response P) (vm : P → Option M)
    (hiss : st.status = JobStatus.IMPORTING ∨
      (st.status = JobStatus.SUCCEEDED ∧ st.modelMetrics = none)) :
    st.getModelQuality resp vm =
      match modelQualityCallback st.modelType resp vm with
      | .error e => (st, .error e, 1)
      | .ok (js, metrics) =>
        ({ st with status := js, modelMetrics := metrics }, .ok metrics, 1) := by
  rcases hiss with h | ⟨h1, h2⟩
  · simp [RefDataset.getModelQuality, h]
  · simp [RefDataset.getModelQuality, h1, h2]

/-- C8: a 200 response whose JSON object lacks the `jobStatus` key is
interpreted as job status `ERROR`: the parsed status defaults to
`JobStatus.ERROR`, and any accessor call that actually issues the request
(last status `IMPORTING`, or `SUCCEEDED` with that slot empty) and whose
response otherwise parses sets the handle's status field to `ERROR`, having
issued exactly one request. -/
theorem missing_jobstatus_defaults_to_error
    {P S D M : Type} (st : RefDataset S D M) (resp : Response P)
    (vs : P → Option S) (vd : P → Option D) (vm : P → Option M)
    (hjs : resp.jobStatus = none) :
    jobStatusGet resp.jobStatus = some JobStatus.ERROR
    ∧ ((st.status = JobStatus.IMPORTING ∨
          (st.status = JobStatus.SUCCEEDED ∧ st.statistics = none)) →
        (resp.statistics = none ∨
          ∃ p, resp.statistics = some p ∧ (vs p).isSome = true) →
        (st.getStatistics resp vs).1.status = JobStatus.ERROR
          ∧ (st.getStatistics resp vs).2.2 = 1)
    ∧ ((st.status = JobStatus.IMPORTING ∨
          (st.status = JobStatus.SUCCEEDED ∧ st.dataMetrics = none)) →
        (resp.dataQuality = none ∨
          (st.modelType = ModelType.BINARY ∧
            ∃ p, resp.dataQuality = some p ∧ (vd p).isSome = true)) →
        (st.getDataQuality resp vd).1.status = JobStatus.ERROR
          ∧ (st.getDataQuality resp vd).2.2 = 1)
    ∧ ((st.status = JobStatus.IMPORTING ∨
          (st.status = JobStatus.SUCCEEDED ∧ st.modelMetrics = none)) →
        (resp.modelQuality = none ∨
          (st.modelType = ModelType.BINARY ∧
            ∃ p, resp.modelQuality = some p ∧ (vm p).isSome = true)) →
        (st.getModelQuality resp vm).1.status = JobStatus.ERROR
          ∧ (st.getModelQuality resp vm).2.2 = 1) := by
  refine ⟨by simp [jobStatusGet, hjs], ?_, ?_, ?_⟩
  · intro hiss hpar
    rw [getStatistics_fetches resp vs hiss]
    rcases hpar with hp | ⟨p, hp, hv⟩
    · simp [statisticsCallback, jobStatusGet, hjs, hp]
    · rcases Option.isSome_iff_exists.mp hv with ⟨s, hv'⟩
      simp [statisticsCallback, jobStatusGet, hjs, hp, hv']
  · intro hiss hpar
    rw [getDataQuality_fetches resp vd hiss]
    rcases hpar with hp | ⟨hmt, p, hp, hv⟩
    · simp [dataQualityCallback, jobStatusGet, hjs, hp]
    · rcases Option.isSome_iff_exists.mp hv with ⟨d, hv'⟩
      simp [dataQualityCallback, jobStatusGet, hjs, hp, hmt, hv']
  · intro hiss hpar
    rw [getModelQuality_fetches resp vm hiss]
    rcases hpar with hp | ⟨hmt, p, hp, hv⟩
    · simp [modelQualityCallback, jobStatusGet, hjs, hp]
    · rcases Option.isSome_iff_exists.mp hv with ⟨q, hv'⟩
      simp [modelQualityCallback, jobStatusGet, hjs, hp, hmt, hv']

theorem missing_jobstatus_defaults_to_error_witness :
    jobStatusGet (none : Option String) = some JobStatus.ERROR
    ∧ ((RefDataset.getStatistics
          (⟨ModelType.BINARY, JobStatus.IMPORTING, none, none, none⟩ : RefDataset Nat Nat Nat)
          (⟨none, some (), none, none⟩ : Response Unit) (fun _ => some 5)).1.status
        = JobStatus.ERROR
      ∧ (RefDataset.getStatistics
          (⟨ModelType.BINARY, JobStatus.IMPORTING, none, none, none⟩ : RefDataset Nat Nat Nat)
          (⟨none, some (), none, none⟩ : Response Unit) (fun _ => some 5)).2.2 = 1) := by
  have h := @missing_jobstatus_defaults_to_error Unit Nat Nat Nat
    (⟨ModelType.BINARY, JobStatus.IMPORTING, none, none, none⟩ : RefDataset Nat Nat Nat)
    (⟨none, some (), none, none⟩ : Response Unit)
    (fun _ => some 5) (fun _ => some 5) (fun _ => some 5) rfl
  exact ⟨h.1, h.2.1 (Or.inl rfl) (Or.inr ⟨(), rfl, rfl⟩)⟩

/-- C9 counterexample: on a non-binary handle, a response that contains the
`dataQuality` key but carries the unrecognized `jobStatus` value `"FOO"`
makes `data_quality()` raise the enum constructor's `ValueError` — not a
`ClientError` — because `JobStatus(...)` (model_reference_dataset.py line
97) is evaluated before the model-type check at line 99, refuting the claim
that the key's presence alone always yields a `ClientError`. -/
theorem nonbinary_dataquality_unknown_jobstatus_not_clienterror :
    RefDataset.getDataQuality
        (⟨ModelType.REGRESSION, JobStatus.IMPORTING, none, none, none⟩ : RefDataset Nat Nat Nat)
        (⟨some "FOO", none, some (), none⟩ : Response Unit) (fun _ => some 0)
      = (⟨ModelType.REGRESSION, JobStatus.IMPORTING, none, none, none⟩,
          .error (PyError.valueError "FOO"), 1)
    ∧ PyError.isClientError (PyError.valueError "FOO") = false :=
  ⟨rfl, rfl⟩

/-- C9 amended: on a non-`BINARY` handle, `data_quality()` /
`model_quality()` raise a `ClientError` whenever the server response
contains the `dataQuality` / `modelQuality` key and its `jobStatus` field
parses (is absent or a recognized value), whatever the payload under that
key; an unrecognized `jobStatus` raises the enum's `ValueError` first
instead; `statistics()` applies no model-type restriction: on any state
(any model type) it parses a present, valid statistics payload. -/
theorem nonbinary_quality_clienterror_statistics_unrestricted
    {P S D M : Type} (resp : Response P) (js : JobStatus)
    (hjs : jobStatusGet resp.jobStatus = some js) :
    (∀ (mt : ModelType), mt ≠ ModelType.BINARY →
        ∀ (vd : P → Option D) p, resp.dataQuality = some p →
          dataQualityCallback mt resp vd = Except.error PyError.nonBinaryMetrics)
    ∧ (∀ (mt : ModelType), mt ≠ ModelType.BINARY →
        ∀ (vm : P → Option M) p, resp.modelQuality = some p →
          modelQualityCallback mt resp vm = Except.error PyError.nonBinaryMetrics)
    ∧ PyError.isClientError PyError.nonBinaryMetrics = true
    ∧ (∀ (st : RefDataset S D M) (vs : P → Option S) p s,
        st.status = JobStatus.IMPORTING → resp.statistics = some p →
        vs p = some s →
        st.getStatistics resp vs
          = ({ st with status := js, statistics := some s }, .ok (some s), 1)) := by
  refine ⟨?_, ?_, rfl, ?_⟩
  · intro mt hmt vd p hp
    simp [dataQualityCallback, hjs, hp, hmt]
  · intro mt hmt vm p hp
    simp [modelQualityCallback, hjs, hp, hmt]
  · intro st vs p s hst hp hv
    rw [getStatistics_fetches resp vs (Or.inl hst)]
    simp [statisticsCallback, hjs, hp, hv]

theorem nonbinary_quality_clienterror_statistics_unrestricted_witness :
    dataQualityCallback ModelType.REGRESSION
        (⟨some "SUCCEEDED", some (), some (), some ()⟩ : Response Unit)
        (fun _ => (some 0 : Option Nat)) = Except.error PyError.nonBinaryMetrics
    ∧ RefDataset.getStatistics
        (⟨ModelType.REGRESSION, JobStatus.IMPORTING, none, none, none⟩ : RefDataset Nat Nat Nat)
        (⟨some "SUCCEEDED", some (), some (), some ()⟩ : Response Unit)
        (fun _ => some 5)
      = (⟨ModelType.REGRESSION, JobStatus.SUCCEEDED, some 5, none, none⟩,
          .ok (some 5), 1) := by
  have h := @nonbinary_quality_clienterror_statistics_unrestricted Unit Nat Nat Nat
    (⟨some "SUCCEEDED", some (), some (), some ()⟩ : Response Unit)
    JobStatus.SUCCEEDED rfl
  refine ⟨h.1 ModelType.REGRESSION (by simp) (fun _ => some 0) () rfl, ?_⟩
  exact h.2.2.2
    (⟨ModelType.REGRESSION, JobStatus.IMPORTING, none, none, none⟩ : RefDataset Nat Nat Nat)
    (fun _ => some 5) () 5 rfl rfl rfl

/-- C4: the computed required header set is exactly the names of the
features, plus the names of the output columns, plus the target column name;
for current datasets the timestamp column name and the supplied (non-empty)
correlation-id column name are additionally required. -/
theorem required_headers_set_eq (m : Model) (c : String) (hc : c ≠ "") :
    (∀ h, h ∈ m.requiredHeaders ↔
        ((∃ f ∈ m.features, f.name = h) ∨ (∃ o ∈ m.outputs.output, o.name = h)
          ∨ h = m.target.name))
    ∧ (∀ h, h ∈ m.loadCurrentRequiredHeaders (some c) ↔
        (h ∈ m.requiredHeaders ∨ h = m.timestamp.name ∨ h = c)) := by
  constructor
  · intro h
    simp only [Model.requiredHeaders, List.mem_map, List.mem_append,
      List.mem_singleton]
    constructor
    · rintro ⟨x, (hx | hx) | hx, hn⟩
      · exact Or.inl ⟨x, hx, hn⟩
      · exact Or.inr (Or.inl ⟨x, hx, hn⟩)
      · exact Or.inr (Or.inr (hx ▸ hn).symm)
    · rintro (⟨f, hf, hn⟩ | ⟨o, ho, hn⟩ | rfl)
      · exact ⟨f, Or.inl (Or.inl hf), hn⟩
      · exact ⟨o, Or.inl (Or.inr ho), hn⟩
      · exact ⟨m.target, Or.inr rfl, rfl⟩
  · intro h
    have ht : truthyStr (some c) = true := by simp [truthyStr, hc]
    simp [Model.loadCurrentRequiredHeaders, ht]
    tauto

theorem required_headers_set_eq_witness :
    ("age" ∈ exampleModel.requiredHeaders ↔
      ((∃ f ∈ exampleModel.features, f.name = "age")
        ∨ (∃ o ∈ exampleModel.outputs.output, o.name = "age")
        ∨ "age" = exampleModel.target.name))
    ∧ ("cid" ∈ exampleModel.loadCurrentRequiredHeaders (some "cid") ↔
        ("cid" ∈ exampleModel.requiredHeaders
          ∨ "cid" = exampleModel.timestamp.name ∨ "cid" = "cid")) := by
  have h := required_headers_set_eq exampleModel "cid" (by decide)
  exact ⟨h.1 "age", h.2 "cid"⟩

/-- C10: `load_current_dataset` adds the correlation-id column to the
required headers only when the argument is truthy (non-`None`, non-empty);
with the `None` default, a file whose headers are exactly the base required
headers plus the timestamp column passes validation; the timestamp column is
required unconditionally. -/
theorem correlation_id_only_when_nonempty (m : Model) (c : String)
    (hc : c ≠ "") :
    m.loadCurrentRequiredHeaders none = m.requiredHeaders ++ [m.timestamp.name]
    ∧ m.loadCurrentRequiredHeaders (some "")
        = m.requiredHeaders ++ [m.timestamp.name]
    ∧ m.loadCurrentRequiredHeaders (some c)
        = (m.requiredHeaders ++ [c]) ++ [m.timestamp.name]
    ∧ issubset (m.loadCurrentRequiredHeaders none)
        (m.requiredHeaders ++ [m.timestamp.name]) = true
    ∧ (∀ cid, m.timestamp.name ∈ m.loadCurrentRequiredHeaders cid) := by
  refine ⟨?_, ?_, ?_, ?_, ?_⟩
  · simp [Model.loadCurrentRequiredHeaders, truthyStr]
  · simp [Model.loadCurrentRequiredHeaders, truthyStr]
  · simp [Model.loadCurrentRequiredHeaders, truthyStr, hc]
  · rw [issubset_iff]
    intro h hmem
    simpa [Model.loadCurrentRequiredHeaders, truthyStr] using hmem
  · intro cid
    simp [Model.loadCurrentRequiredHeaders]

theorem correlation_id_only_when_nonempty_witness :
    exampleModel.loadCurrentRequiredHeaders none
      = exampleModel.requiredHeaders ++ [exampleModel.timestamp.name]
    ∧ exampleModel.loadCurrentRequiredHeaders (some "corr_id")
        = (exampleModel.requiredHeaders ++ ["corr_id"])
            ++ [exampleModel.timestamp.name] := by
  have h := correlation_id_only_when_nonempty exampleModel "corr_id" (by decide)
  exact ⟨h.1, h.2.2.1⟩

/-- C5: when the required header set is not a subset of the candidate file's
headers, each of the four dataset operations raises the `ClientError` naming
the required columns, and performs neither the storage upload nor the
server-side bind call (its effect list is empty). -/
theorem validation_failure_no_upload_no_bind
    (m : Model) (fileName bucket datasetUrl separator cidStr : String)
    (objectName : Option String) (cid : Option String)
    (fileHeaders : List String) (uploadOk : Bool)
    (refResp : Option ReferenceFileUpload) (curResp : Option CurrentFileUpload) :
    (issubset m.requiredHeaders fileHeaders = false →
        m.load_reference_dataset fileName bucket objectName separator
            fileHeaders uploadOk refResp
          = (.error (.missingColumns fileName m.requiredHeaders), [])
        ∧ m.bind_reference_dataset datasetUrl separator (some fileHeaders) refResp
          = (.error (.missingColumns datasetUrl m.requiredHeaders), []))
    ∧ (issubset (m.loadCurrentRequiredHeaders cid) fileHeaders = false →
        m.load_current_dataset fileName bucket cid objectName separator
            fileHeaders uploadOk curResp
          = (.error (.missingColumns fileName
              (m.loadCurrentRequiredHeaders cid)), []))
    ∧ (issubset ((m.requiredHeaders ++ [cidStr]) ++ [m.timestamp.name])
          fileHeaders = false →
        m.bind_current_dataset datasetUrl cidStr separator (some fileHeaders)
            curResp
          = (.error (.missingColumns datasetUrl
              ((m.requiredHeaders ++ [cidStr]) ++ [m.timestamp.name])), []))
    ∧ PyError.isClientError (.missingColumns fileName m.requiredHeaders) = true := by
  refine ⟨fun hv => ⟨?_, ?_⟩, fun hv => ?_, fun hv => ?_, rfl⟩
  · simp [Model.load_reference_dataset, hv]
  · simp [Model.bind_reference_dataset, hv]
  · simp [Model.load_current_dataset, hv]
  · have hv' : issubset (m.requiredHeaders ++ [cidStr, m.timestamp.name])
        fileHeaders = false := by simpa using hv
    simp [Model.bind_current_dataset, hv']

theorem validation_failure_no_upload_no_bind_witness :
    exampleModel.load_reference_dataset "people.csv" "bucket" none ","
        ["age", "adult"] true none
      = (.error (.missingColumns "people.csv" ["age", "prediction", "adult"]), [])
    ∧ exampleModel.bind_current_dataset "s3://bucket/key" "corr_id" ","
        (some ["age", "adult"]) none
      = (.error (.missingColumns "s3://bucket/key"
          ["age", "prediction", "adult", "corr_id", "created_at"]), []) := by
  have h := validation_failure_no_upload_no_bind exampleModel "people.csv"
    "bucket" "s3://bucket/key" "," "corr_id" none none ["age", "adult"] true
    none none
  exact ⟨(h.1 rfl).1, h.2.2.1 rfl⟩

/-- C7: when `object_name` is omitted, the object key used for the upload is
`{model_uuid}/{kind}/{basename(file_name)}` with `kind` `reference` or
`current`; when supplied, it is used verbatim; and the bind call addresses
`s3://{bucket}/{key}` for that same key. -/
theorem resolved_object_key_eq
    (m : Model) (fileName bucket separator o : String)
    (cid : Option String) (fileHeaders : List String) (uploadOk : Bool)
    (refResp : Option ReferenceFileUpload) (curResp : Option CurrentFileUpload)
    (href : issubset m.requiredHeaders fileHeaders = true)
    (hcur : issubset (m.loadCurrentRequiredHeaders cid) fileHeaders = true) :
    ((m.load_reference_dataset fileName bucket none separator fileHeaders
        uploadOk refResp).2).head?
      = some (.s3Upload fileName bucket
          (m.uuid ++ "/reference/" ++ basename fileName)
          [("model_uuid", m.uuid), ("model_name", m.name),
            ("file_type", "reference")])
    ∧ ((m.load_reference_dataset fileName bucket (some o) separator fileHeaders
        uploadOk refResp).2).head?
      = some (.s3Upload fileName bucket o
          [("model_uuid", m.uuid), ("model_name", m.name),
            ("file_type", "reference")])
    ∧ ((m.load_current_dataset fileName bucket cid none separator fileHeaders
        uploadOk curResp).2).head?
      = some (.s3Upload fileName bucket
          (m.uuid ++ "/current/" ++ basename fileName)
          [("model_uuid", m.uuid), ("model_name", m.name),
            ("file_type", "current")])
    ∧ ((m.load_current_dataset fileName bucket cid (some o) separator
        fileHeaders uploadOk curResp).2).head?
      = some (.s3Upload fileName bucket o
          [("model_uuid", m.uuid), ("model_name", m.name),
            ("file_type", "current")])
    ∧ (m.load_reference_dataset fileName bucket none separator fileHeaders
        true refResp).2
      = [.s3Upload fileName bucket (m.uuid ++ "/reference/" ++ basename fileName)
          [("model_uuid", m.uuid), ("model_name", m.name),
            ("file_type", "reference")],
         .bindReference (m.base_url ++ "/api/models/" ++ m.uuid ++ "/reference/bind")
          ("s3://" ++ bucket ++ "/" ++ (m.uuid ++ "/reference/" ++ basename fileName))
          separator] := by
  refine ⟨?_, ?_, ?_, ?_, ?_⟩
  · cases uploadOk <;> cases refResp <;>
      simp [Model.load_reference_dataset, href]
  · cases uploadOk <;> cases refResp <;>
      simp [Model.load_reference_dataset, href]
  · cases uploadOk <;> cases curResp <;>
      simp [Model.load_current_dataset, hcur]
  · cases uploadOk <;> cases curResp <;>
      simp [Model.load_current_dataset, hcur]
  · cases refResp <;> simp [Model.load_reference_dataset, href]

theorem resolved_object_key_eq_witness :
    ((exampleModel.load_reference_dataset "data/people.csv" "bucket" none ","
        ["age", "adult", "prediction", "created_at"] true none).2).head?
      = some (.s3Upload "data/people.csv" "bucket" "m-1/reference/people.csv"
          [("model_uuid", "m-1"), ("model_name", "My Model"),
            ("file_type", "reference")])
    ∧ ((exampleModel.load_current_dataset "data/people.csv" "bucket" none
        (some "my/key.csv") "," ["age", "adult", "prediction", "created_at"]
        true none).2).head?
      = some (.s3Upload "data/people.csv" "bucket" "my/key.csv"
          [("model_uuid", "m-1"), ("model_name", "My Model"),
            ("file_type", "current")]) := by
  have h := resolved_object_key_eq exampleModel "data/people.csv" "bucket" ","
    "my/key.csv" none ["age", "adult", "prediction", "created_at"] true none
    none rfl rfl
  exact ⟨h.1.trans (by decide), h.2.2.2.1.trans (by decide)⟩

/-- C6 (the claim is right, the code is wrong): `model.py` evaluates
`ModelFeatures(features=new_features)` to build the request body of
`update_features`, but never imports `ModelFeatures`, so every call raises
`NameError` before `invoke` is entered: nothing is sent to the server and
the local feature list is never replaced — although the test
`test_update_model_features` expects the POST to happen and
`model.features()` to equal the new list afterwards. -/
theorem update_features_always_nameerror
    (m : Model) (newFeatures : List ColumnDefinition) (postOk : Bool) :
    m.update_features newFeatures postOk
      = (.error (.nameError "ModelFeatures"), m, []) := by
  rfl

end RadicalBit
